import Mathlib

/-!
Verification of the Smart-T-shirt backend signal generator
(`src/backend/app.py`) against its specification.

The Flask app holds three module-level variables: `generation_mode`
(a string, initially `"stopped"`), `current_time_ms` (an integer
millisecond timestamp, initially the wall clock) and `phase` (a float
accumulator, initially `0.0`).  We embed that state as `SimState` with
`phase : ℚ` (all phase increments in the source are the decimal
literals `0.5` and `0.45`, so the accumulator stays rational; it is
cast to `ℝ` exactly where the source applies `math.sin`).

Sources of nondeterminism are passed as explicit arguments:
`rr` stands for the draw of `random.random()` (in `[0,1)`), `ru` for
the draw of `random.uniform(130, 180)`, and `now_ms` for
`int(time.time() * 1000)` at the moment `set_mode` runs.

`datetime.fromtimestamp(ms / 1000.0, tz=timezone.utc).isoformat()` is
embedded as the executable `isoformatUTC`, using the standard civil-
from-days calendar algorithm; the float division by `1000.0` is
modelled as exact, so the fractional part is the millisecond remainder
printed at microsecond width (Python prints six fractional digits, and
omits the fractional part when the microsecond field is zero).
-/

namespace SmartTshirt

/-- `valid_modes = ['normal', 'abnormal', 'stopped']` from `set_mode`
(and the same list is joined into the error message). -/
def valid_modes : List String := ["normal", "abnormal", "stopped"]

/-- The module-level mutable state of `app.py`: `generation_mode`,
`current_time_ms` and `phase`. -/
structure SimState where
  generation_mode : String
  current_time_ms : ℤ
  phase : ℚ
deriving DecidableEq, Repr

/-- The state at process start: mode `"stopped"`, clock at the
wall-clock value `t0 = int(time.time() * 1000)`, phase `0.0`. -/
def initState (t0 : ℤ) : SimState :=
  { generation_mode := "stopped", current_time_ms := t0, phase := 0 }

/-- Left-pad the decimal digits of `n` with zeros to width `w`
(helper for ISO-8601 formatting). -/
def pad0 (w : ℕ) (n : ℤ) : String :=
  let s := toString n.toNat
  String.mk (List.replicate (w - s.length) '0') ++ s

/-- Civil date `(year, month, day)` from a day count relative to the
epoch 1970-01-01 (proleptic Gregorian calendar). -/
def civilFromDays (z0 : ℤ) : ℤ × ℤ × ℤ :=
  let z := z0 + 719468
  let era := z.fdiv 146097
  let doe := z.fmod 146097
  let yoe := (doe - doe / 1460 + doe / 36524 - doe / 146096) / 365
  let y := yoe + era * 400
  let doy := doe - (365 * yoe + yoe / 4 - yoe / 100)
  let mp := (5 * doy + 2) / 153
  let d := doy - (153 * mp + 2) / 5 + 1
  let m := mp + (if mp < 10 then 3 else -9)
  (y + (if m ≤ 2 then 1 else 0), m, d)

/-- `datetime.fromtimestamp(ms / 1000.0, tz=timezone.utc).isoformat()`
for a millisecond timestamp `ms`: `YYYY-MM-DDTHH:MM:SS[.ffffff]+00:00`,
the fractional part (microsecond width) present iff the sub-second
remainder is nonzero. -/
def isoformatUTC (ms : ℤ) : String :=
  let secs := ms.fdiv 1000
  let msRem := ms.fmod 1000
  let days := secs.fdiv 86400
  let sod := secs.fmod 86400
  let ymd := civilFromDays days
  let hh := sod / 3600
  let mi := sod / 60 % 60
  let ss := sod % 60
  let frac := if msRem = 0 then "" else "." ++ pad0 6 (msRem * 1000)
  pad0 4 ymd.1 ++ "-" ++ pad0 2 ymd.2.1 ++ "-" ++ pad0 2 ymd.2.2 ++ "T" ++
    pad0 2 hh ++ ":" ++ pad0 2 mi ++ ":" ++ pad0 2 ss ++ frac ++ "+00:00"

/-- One generated sample: `{"time": simulated_timestamp, "value": round(value, 2)}`. -/
structure Point where
  time : String
  value : ℝ

/-- Python's `round(x, 2)`: the value `x` rounded to two decimal
places (`round` here is Mathlib's round-half-up; the source's ties are
never exercised by the spec's properties). -/
noncomputable def round2 (x : ℝ) : ℝ := ((round (x * 100) : ℤ) : ℝ) / 100

/-- `generate_ecg_point()`:  branches on `generation_mode`; in
`'normal'` the value is `sin(phase) * 50 + 60` and `phase += 0.5`; in
`'abnormal'`, with `random.random() < 0.1` the value is
`random.uniform(130, 180)` and the phase is untouched, otherwise the
value is `sin(phase) * 40 + 65` and `phase += 0.45`; in every other
mode (`'stopped'`) the value is `0.0`.  In all cases
`current_time_ms += 100` and the returned point carries the ISO
rendering of the advanced clock and the value rounded to 2 decimals. -/
noncomputable def generate_ecg_point (rr ru : ℚ) (s : SimState) : Point × SimState :=
  let time_increment_ms : ℤ := 100
  let vp : ℝ × ℚ :=
    if s.generation_mode = "normal" then
      (Real.sin (s.phase : ℝ) * 50 + 60, s.phase + 0.5)
    else if s.generation_mode = "abnormal" then
      if rr < 0.1 then ((ru : ℝ), s.phase)
      else (Real.sin (s.phase : ℝ) * 40 + 65, s.phase + 0.45)
    else
      (0.0, s.phase)
  let t := s.current_time_ms + time_increment_ms
  ({ time := isoformatUTC t, value := round2 vp.1 },
   { s with current_time_ms := t, phase := vp.2 })

/-- The JSON body returned by the `set_mode` route: either
`status: success` with the new mode, or `status: error` with a
message. -/
inductive SetModeBody where
  | success (new_mode : String)
  | error (message : String)
deriving DecidableEq, Repr

/-- HTTP status code and body of a `set_mode` response. -/
structure SetModeResult where
  http_status : ℕ
  body : SetModeBody
deriving DecidableEq, Repr

/-- `POST /set_mode/<mode>`: if `mode` is in `valid_modes`, reset
`current_time_ms` to the wall clock and `phase` to `0.0` when the
current mode is `'stopped'` and the requested one is not, then apply
the mode and answer 200; otherwise answer 400 with the joined list of
valid modes and leave the state alone. -/
def set_mode (now_ms : ℤ) (mode : String) (s : SimState) : SetModeResult × SimState :=
  if mode ∈ valid_modes then
    let s1 :=
      if s.generation_mode = "stopped" ∧ mode ≠ "stopped" then
        { s with current_time_ms := now_ms, phase := 0 }
      else s
    ({ http_status := 200, body := SetModeBody.success mode },
     { s1 with generation_mode := mode })
  else
    ({ http_status := 400,
       body := SetModeBody.error
         ("Invalid mode. Use one of: " ++ String.intercalate ", " valid_modes) },
     s)

/-- `GET /status`: returns the current `generation_mode` (pure read). -/
def get_status (s : SimState) : String := s.generation_mode

/-- `GET /data`: an empty list with 200 when stopped, otherwise
exactly the one point produced by `generate_ecg_point`, with the
updated state. -/
noncomputable def get_data (rr ru : ℚ) (s : SimState) :
    (List Point × ℕ) × SimState :=
  if s.generation_mode = "stopped" then (([], 200), s)
  else
    let ps := generate_ecg_point rr ru s
    (([ps.1], 200), ps.2)

/-- One externally triggered operation, with its nondeterministic
inputs attached: a `POST /set_mode/<mode>` at wall-clock `now_ms`, or
a `GET /data` with the random draws `rr`, `ru`. -/
inductive Op where
  | setMode (now_ms : ℤ) (mode : String)
  | getData (rr ru : ℚ)

/-- State transition of a single operation. -/
noncomputable def runOp (op : Op) (s : SimState) : SimState :=
  match op with
  | .setMode now m => (set_mode now m s).2
  | .getData rr ru => (get_data rr ru s).2

/-- State after a sequence of operations. -/
noncomputable def runOps (ops : List Op) (s : SimState) : SimState :=
  match ops with
  | [] => s
  | op :: rest => runOps rest (runOp op s)

/-- A single operation cannot move the simulated clock backwards,
provided a restarting `set_mode` (current mode `"stopped"`, requested
mode valid and not `"stopped"`) is handed a wall-clock value at least
the current simulated clock. -/
def stepForward (op : Op) (s : SimState) : Prop :=
  match op with
  | .setMode now m =>
      (s.generation_mode = "stopped" ∧ m ∈ valid_modes ∧ m ≠ "stopped") →
        s.current_time_ms ≤ now
  | .getData _ _ => True

/-- `stepForward` holding at every intermediate state of a run. -/
def ResetsForward : SimState → List Op → Prop
  | _, [] => True
  | s, op :: rest => stepForward op s ∧ ResetsForward (runOp op s) rest

/-- `round` on a linearly ordered field is monotone. -/
theorem round_mono_of_le {x y : ℝ} (h : x ≤ y) : round x ≤ round y := by
  rw [round_eq, round_eq]
  exact Int.floor_mono (by linarith)

/-- `round2` maps `[130, 180]` into `[130, 180]`. -/
theorem round2_mem_Icc {x : ℝ} (h1 : 130 ≤ x) (h2 : x ≤ 180) :
    130 ≤ round2 x ∧ round2 x ≤ 180 := by
  have hlo : (13000 : ℤ) ≤ round (x * 100) := by
    have := round_mono_of_le (y := x * 100) (x := ((13000 : ℤ) : ℝ)) (by push_cast; linarith)
    simpa using this
  have hhi : round (x * 100) ≤ (18000 : ℤ) := by
    have := round_mono_of_le (x := x * 100) (y := ((18000 : ℤ) : ℝ)) (by push_cast; linarith)
    simpa using this
  constructor
  · have : ((13000 : ℤ) : ℝ) ≤ ((round (x * 100) : ℤ) : ℝ) := by exact_mod_cast hlo
    unfold round2
    push_cast at this ⊢
    linarith
  · have : ((round (x * 100) : ℤ) : ℝ) ≤ ((18000 : ℤ) : ℝ) := by exact_mod_cast hhi
    unfold round2
    push_cast at this ⊢
    linarith

/-- C1: for every valid requested mode `m`, `set_mode` applies `m` (a
subsequent `get_status` returns `m`); it resets `current_time_ms` to
the wall clock and `phase` to `0` exactly when the current mode is
`"stopped"` and `m` is not `"stopped"`, and leaves both untouched in
every other valid transition. -/
theorem C1_set_mode_transition (s : SimState) (m : String) (now : ℤ)
    (hm : m ∈ valid_modes) :
    get_status (set_mode now m s).2 = m ∧
    ((s.generation_mode = "stopped" ∧ m ≠ "stopped") →
      (set_mode now m s).2.current_time_ms = now ∧ (set_mode now m s).2.phase = 0) ∧
    (¬ (s.generation_mode = "stopped" ∧ m ≠ "stopped") →
      (set_mode now m s).2.current_time_ms = s.current_time_ms ∧
      (set_mode now m s).2.phase = s.phase) := by
  unfold set_mode get_status
  rw [if_pos hm]
  by_cases hc : s.generation_mode = "stopped" ∧ m ≠ "stopped"
  · rw [if_pos hc]
    exact ⟨rfl, fun _ => ⟨rfl, rfl⟩, fun h => absurd hc h⟩
  · rw [if_neg hc]
    exact ⟨rfl, fun h => absurd h hc, fun _ => ⟨rfl, rfl⟩⟩

/-- Witness for C1 at `m = "normal"` from a stopped state. -/
theorem C1_witness :
    "normal" ∈ valid_modes ∧
    (get_status (set_mode 42 "normal" (SimState.mk "stopped" 7 3)).2 = "normal" ∧
    ((SimState.mk "stopped" 7 3).generation_mode = "stopped" ∧ "normal" ≠ "stopped" →
      (set_mode 42 "normal" (SimState.mk "stopped" 7 3)).2.current_time_ms = 42 ∧
      (set_mode 42 "normal" (SimState.mk "stopped" 7 3)).2.phase = 0) ∧
    (¬ ((SimState.mk "stopped" 7 3).generation_mode = "stopped" ∧ "normal" ≠ "stopped") →
      (set_mode 42 "normal" (SimState.mk "stopped" 7 3)).2.current_time_ms = 7 ∧
      (set_mode 42 "normal" (SimState.mk "stopped" 7 3)).2.phase = 3)) :=
  ⟨by decide, C1_set_mode_transition (SimState.mk "stopped" 7 3) "normal" 42 (by decide)⟩

/-- C2: in `"normal"` mode the data endpoint returns exactly one
point, its value is `sin(phase) * 50 + 60` rounded to 2 decimals, and
afterwards the phase has grown by `0.5` and the clock by `100` ms. -/
theorem C2_normal_point (t : ℤ) (p : ℚ) (rr ru : ℚ) :
    (get_data rr ru (SimState.mk "normal" t p)).1.1 =
      [(generate_ecg_point rr ru (SimState.mk "normal" t p)).1] ∧
    (generate_ecg_point rr ru (SimState.mk "normal" t p)).1.value =
      round2 (Real.sin (p : ℝ) * 50 + 60) ∧
    (get_data rr ru (SimState.mk "normal" t p)).2.phase = p + 0.5 ∧
    (get_data rr ru (SimState.mk "normal" t p)).2.current_time_ms = t + 100 := by
  unfold get_data generate_ecg_point
  norm_num
  rw [if_neg (by decide : ¬ ("normal" = "stopped"))]
  norm_num

/-- C3: for every string outside `valid_modes` (the match is
case-sensitive), `set_mode` answers 400 with the invalid-mode error
body and returns the state unchanged in all three fields. -/
theorem C3_invalid_mode (s : SimState) (m : String) (now : ℤ)
    (hm : m ∉ valid_modes) :
    (set_mode now m s).1.http_status = 400 ∧
    (set_mode now m s).1.body =
      SetModeBody.error ("Invalid mode. Use one of: " ++ String.intercalate ", " valid_modes) ∧
    (set_mode now m s).2 = s := by
  unfold set_mode
  rw [if_neg hm]
  exact ⟨rfl, rfl, rfl⟩

/-- Witness for C3 at the wrongly capitalised string `"Stopped"`. -/
theorem C3_witness :
    "Stopped" ∉ valid_modes ∧
    ((set_mode 5 "Stopped" (SimState.mk "normal" 11 2)).1.http_status = 400 ∧
    (set_mode 5 "Stopped" (SimState.mk "normal" 11 2)).1.body =
      SetModeBody.error ("Invalid mode. Use one of: " ++ String.intercalate ", " valid_modes) ∧
    (set_mode 5 "Stopped" (SimState.mk "normal" 11 2)).2 = SimState.mk "normal" 11 2) :=
  ⟨by decide, C3_invalid_mode (SimState.mk "normal" 11 2) "Stopped" 5 (by decide)⟩

/-- C4: with the mode stopped, `GET /data` answers the empty list with
status 200 — no point and no error. -/
theorem C4_stopped_empty (t : ℤ) (p : ℚ) (rr ru : ℚ) :
    (get_data rr ru (SimState.mk "stopped" t p)).1 = ([], 200) := by
  unfold get_data
  norm_num

/-- C5: in `"abnormal"` mode the data endpoint returns exactly one
point and advances the clock by 100 ms; on the spike branch
(`random.random() < 0.1`) the value is the uniform draw rounded to 2
decimals — hence inside `[130, 180]` whenever the draw is — and the
phase is unchanged; otherwise the value is `sin(phase) * 40 + 65`
rounded to 2 decimals and the phase grows by `0.45`. -/
theorem C5_abnormal_point (t : ℤ) (p : ℚ) (rr ru : ℚ) :
    (get_data rr ru (SimState.mk "abnormal" t p)).1.1 =
      [(generate_ecg_point rr ru (SimState.mk "abnormal" t p)).1] ∧
    (get_data rr ru (SimState.mk "abnormal" t p)).2.current_time_ms = t + 100 ∧
    (rr < 0.1 →
      (generate_ecg_point rr ru (SimState.mk "abnormal" t p)).1.value = round2 (ru : ℝ) ∧
      (get_data rr ru (SimState.mk "abnormal" t p)).2.phase = p ∧
      (130 ≤ ru → ru ≤ 180 →
        130 ≤ (generate_ecg_point rr ru (SimState.mk "abnormal" t p)).1.value ∧
        (generate_ecg_point rr ru (SimState.mk "abnormal" t p)).1.value ≤ 180)) ∧
    (¬ rr < 0.1 →
      (generate_ecg_point rr ru (SimState.mk "abnormal" t p)).1.value =
        round2 (Real.sin (p : ℝ) * 40 + 65) ∧
      (get_data rr ru (SimState.mk "abnormal" t p)).2.phase = p + 0.45) := by
  unfold get_data generate_ecg_point
  rw [if_neg (by decide : ¬ ("abnormal" = "stopped"))]
  norm_num
  rw [if_neg (by decide : ¬ ("abnormal" = "normal"))]
  by_cases hr : rr < (1 / 10 : ℚ)
  · rw [if_pos hr]
    refine ⟨fun _ => ⟨rfl, rfl, fun h1 h2 => ?_⟩, fun hn => absurd hr (not_lt.mpr hn)⟩
    have h1R : (130 : ℝ) ≤ (ru : ℝ) := by exact_mod_cast h1
    have h2R : (ru : ℝ) ≤ 180 := by exact_mod_cast h2
    exact round2_mem_Icc h1R h2R
  · rw [if_neg hr]
    exact ⟨fun h => absurd h hr, fun _ => ⟨rfl, rfl⟩⟩

/-- Witness for C5: spike branch at `rr = 0`, `ru = 150`. -/
theorem C5_witness :
    (0 : ℚ) < 0.1 ∧ (130 : ℚ) ≤ 150 ∧ (150 : ℚ) ≤ 180 ∧
    (generate_ecg_point 0 150 (SimState.mk "abnormal" 0 0)).1.value = round2 ((150 : ℚ) : ℝ) ∧
    (get_data 0 150 (SimState.mk "abnormal" 0 0)).2.phase = 0 ∧
    130 ≤ (generate_ecg_point 0 150 (SimState.mk "abnormal" 0 0)).1.value ∧
    (generate_ecg_point 0 150 (SimState.mk "abnormal" 0 0)).1.value ≤ 180 := by
  have h := C5_abnormal_point 0 0 0 150
  have hr : (0 : ℚ) < 0.1 := by norm_num
  have hs := h.2.2.1 hr
  have hb := hs.2.2 (by norm_num) (by norm_num)
  exact ⟨hr, by norm_num, by norm_num, hs.1, hs.2.1, hb.1, hb.2⟩

/-- C7: the sequence `set_mode("normal")`, `set_mode("stopped")`,
`set_mode("normal")` leaves the state with phase `0` and clock equal
to the wall-clock value of the final call, whatever the starting
state; the first point generated after this restart therefore has
value `sin(0) * 50 + 60 = 60.00`. -/
theorem C7_restart_resets (s : SimState) (n1 n2 n3 : ℤ) (rr ru : ℚ) :
    (set_mode n3 "normal"
      (set_mode n2 "stopped" (set_mode n1 "normal" s).2).2).2.phase = 0 ∧
    (set_mode n3 "normal"
      (set_mode n2 "stopped" (set_mode n1 "normal" s).2).2).2.current_time_ms = n3 ∧
    (generate_ecg_point rr ru
      (set_mode n3 "normal"
        (set_mode n2 "stopped" (set_mode n1 "normal" s).2).2).2).1.value = 60 := by
  have h3 : (set_mode n3 "normal"
      (set_mode n2 "stopped" (set_mode n1 "normal" s).2).2).2 =
      { generation_mode := "normal", current_time_ms := n3, phase := 0 } := rfl
  rw [h3]
  refine ⟨rfl, rfl, ?_⟩
  unfold generate_ecg_point
  norm_num
  unfold round2
  rw [show ((60 : ℝ) * 100) = ((6000 : ℤ) : ℝ) by norm_num, round_intCast]
  norm_num

/-- C8: every generated point's `time` is the ISO-8601 UTC rendering
of the state's (advanced) `current_time_ms`, and its `value` is an
integer multiple of `1/100` — i.e. a number with exactly 2 decimal
places, being `round2` of the raw branch value. -/
theorem C8_point_fields (s : SimState) (rr ru : ℚ) :
    (generate_ecg_point rr ru s).1.time =
      isoformatUTC ((generate_ecg_point rr ru s).2.current_time_ms) ∧
    (generate_ecg_point rr ru s).2.current_time_ms = s.current_time_ms + 100 ∧
    ∃ k : ℤ, (generate_ecg_point rr ru s).1.value = (k : ℝ) / 100 := by
  unfold generate_ecg_point
  refine ⟨rfl, rfl, ?_⟩
  exact ⟨_, rfl⟩

/-- C10: with the mode stopped, `GET /data` returns the empty list and
leaves the whole state untouched, whereas the internal generator, had
it been called, would have produced a point of value `0.0` and pushed
the clock forward by 100 ms — that branch is unreachable through the
endpoint. -/
theorem C10_stopped_endpoint_pure (t : ℤ) (p : ℚ) (rr ru : ℚ) :
    (get_data rr ru (SimState.mk "stopped" t p)).2 = SimState.mk "stopped" t p ∧
    (get_data rr ru (SimState.mk "stopped" t p)).1.1 = [] ∧
    (generate_ecg_point rr ru (SimState.mk "stopped" t p)).1.value = 0 ∧
    (generate_ecg_point rr ru (SimState.mk "stopped" t p)).2.current_time_ms = t + 100 := by
  unfold get_data generate_ecg_point
  norm_num
  rw [if_neg (by decide : ¬ ("stopped" = "normal")),
    if_neg (by decide : ¬ ("stopped" = "abnormal"))]
  simp [round2]

/-- One operation never decreases the clock when its `stepForward`
side condition holds. -/
theorem runOp_clock_le (op : Op) (s : SimState) (h : stepForward op s) :
    s.current_time_ms ≤ (runOp op s).current_time_ms := by
  cases op with
  | setMode now m =>
    simp only [runOp]
    unfold set_mode
    by_cases hv : m ∈ valid_modes
    · rw [if_pos hv]
      by_cases hc : s.generation_mode = "stopped" ∧ m ≠ "stopped"
      · rw [if_pos hc]
        exact h ⟨hc.1, hv, hc.2⟩
      · rw [if_neg hc]
    · rw [if_neg hv]
  | getData rr ru =>
    simp only [runOp]
    unfold get_data
    by_cases hs : s.generation_mode = "stopped"
    · rw [if_pos hs]
    · rw [if_neg hs]
      unfold generate_ecg_point
      simp

/-- C6 counterexample: starting stopped at wall-clock 0, switch on,
fetch two points (simulated clock reaches 200 ms while only 100 ms of
wall time passes), stop, and switch on again at wall-clock 100: the
restart resets the simulated clock from 200 back to 100, so
`current_time_ms` is not non-decreasing across every operation
sequence. -/
theorem C6_counterexample :
    (runOps [Op.setMode 0 "normal", Op.getData 1 1, Op.getData 1 1,
        Op.setMode 50 "stopped", Op.setMode 100 "normal"] (initState 0)).current_time_ms <
    (runOps [Op.setMode 0 "normal", Op.getData 1 1, Op.getData 1 1,
        Op.setMode 50 "stopped"] (initState 0)).current_time_ms := by
  decide

/-- C6 (amended): every generated point advances the clock by exactly
100 ms regardless of wall-clock time, and along any operation sequence
whose restarting `set_mode` calls see a wall clock at least the
current simulated clock, `current_time_ms` is non-decreasing (the
claim's unconditional monotonicity fails at restarts whose wall clock
lags the simulated clock). -/
theorem C6_clock_amended (ops : List Op) (s : SimState) (h : ResetsForward s ops) :
    s.current_time_ms ≤ (runOps ops s).current_time_ms ∧
    (∀ (rr ru : ℚ) (s1 : SimState), s1.generation_mode ≠ "stopped" →
      (runOp (Op.getData rr ru) s1).current_time_ms = s1.current_time_ms + 100) := by
  constructor
  · induction ops generalizing s with
    | nil => exact le_refl _
    | cons op rest ih =>
      obtain ⟨h1, h2⟩ := h
      calc s.current_time_ms ≤ (runOp op s).current_time_ms := runOp_clock_le op s h1
        _ ≤ (runOps rest (runOp op s)).current_time_ms := ih (runOp op s) h2
  · intro rr ru s1 hs1
    simp only [runOp]
    unfold get_data
    rw [if_neg hs1]
    rfl

/-- Witness for C6 (amended): a restart at wall-clock 5 from the
initial state with clock 0. -/
theorem C6_witness :
    ResetsForward (initState 0) [Op.setMode 5 "normal"] ∧
    (initState 0).current_time_ms ≤
      (runOps [Op.setMode 5 "normal"] (initState 0)).current_time_ms := by
  have hRF : ResetsForward (initState 0) [Op.setMode 5 "normal"] :=
    ⟨fun _ => (by norm_num : (0 : ℤ) ≤ 5), trivial⟩
  exact ⟨hRF, (C6_clock_amended [Op.setMode 5 "normal"] (initState 0) hRF).1⟩

/-- C9 counterexample: for the invalid mode `"foo"` the route does
answer 400, but the error message lists the valid modes in the order
`normal, abnormal, stopped` (the join of the source's `valid_modes`
list), not `stopped, normal, abnormal` as the claim states. -/
theorem C9_counterexample :
    (set_mode 0 "foo" (SimState.mk "stopped" 0 0)).1.http_status = 400 ∧
    (set_mode 0 "foo" (SimState.mk "stopped" 0 0)).1.body ≠
      SetModeBody.error "Invalid mode. Use one of: stopped, normal, abnormal" ∧
    (set_mode 0 "foo" (SimState.mk "stopped" 0 0)).1.body =
      SetModeBody.error "Invalid mode. Use one of: normal, abnormal, stopped" := by
  decide

/-- C9 (amended): for every invalid mode string the route answers 400
with the body `status: error`, `message: "Invalid mode. Use one of:
normal, abnormal, stopped"` — the valid modes listed in the order of
the source's `valid_modes` list. -/
theorem C9_amended_error_body (s : SimState) (m : String) (now : ℤ)
    (hm : m ∉ valid_modes) :
    (set_mode now m s).1.http_status = 400 ∧
    (set_mode now m s).1.body =
      SetModeBody.error "Invalid mode. Use one of: normal, abnormal, stopped" := by
  unfold set_mode
  rw [if_neg hm]
  exact ⟨rfl, rfl⟩

/-- Witness for C9 (amended) at the invalid string `"foo"`. -/
theorem C9_witness :
    "foo" ∉ valid_modes ∧
    ((set_mode 3 "foo" (SimState.mk "normal" 1 2)).1.http_status = 400 ∧
     (set_mode 3 "foo" (SimState.mk "normal" 1 2)).1.body =
       SetModeBody.error "Invalid mode. Use one of: normal, abnormal, stopped") :=
  ⟨by decide, C9_amended_error_body (SimState.mk "normal" 1 2) "foo" 3 (by decide)⟩

end SmartTshirt
